import Mathlib

/-!
Shallow embedding of `src/main.go` of the veeam-monitor repository.

The program is a poll-classify-notify loop.  The pure computational parts are
embedded here, translated function by function from the Go source:

* `parseJobStatusOutput` (main.go 289-324): CSV-ish parsing of the external
  tool's output.  Modelled on `List Char` with Go-faithful helpers
  (`splitChar` for `strings.Split` with a one-character separator,
  `trimSpace` for `strings.TrimSpace`, `trimQuotes` for
  `strings.Trim(s, "\x22")`).
* `sendEmailAlert` (main.go 327-411): split into its straight-line pieces,
  `emailSubject`, the three group filters, the three section renderers, the
  body assembly, and the SMTP call value.  The Running-job block evaluates
  `strings.Split(job.Duration, ".")[1]`, which panics (index out of range)
  when the split yields fewer than two pieces; that panic is modelled as
  `Option.none`.
* `loadConfig`'s post-parse normalisation (main.go 206-222) as
  `normalizeConfig` (the file read and JSON decode are I/O and stay outside
  the embedding).
* the per-category merge of the main loop (main.go 120-150) as
  `collectProblematicJobs`, with each category's external query outcome an
  explicit `Except` input, and the dispatch decision (main.go 152-161) as
  `cycleDispatch`.
-/

/-- One Veeam job's observed state (`struct JobStatus`, main.go 34-41). -/
structure JobStatus where
  Name : String
  Status : String
  StartTime : String
  EndTime : String
  Description : String
  Duration : String
deriving DecidableEq, Repr

/-- Application configuration (`struct Config`, main.go 18-31).  Go `int`
fields are modelled as `Int`. -/
structure Config where
  VeeamPowerShellModule : String
  VeeamServerAddress : String
  CheckIntervalMinutes : Int
  SMTPServer : String
  SMTPPort : Int
  EmailFrom : String
  EmailTo : List String
  EmailPassword : String
  MonitorFailedJobs : Bool
  MonitorWarningJobs : Bool
  MonitorRunningJobs : Bool
  LongRunningThreshold : Int
deriving DecidableEq, Repr

/-- Go `strings.Split(s, sep)` for a one-character separator, acting on the
character list of `s`.  Splitting the empty string yields `[[]]`, and a
string with `n` separators yields `n + 1` pieces, exactly as in Go. -/
def splitChar (sep : Char) : List Char → List (List Char)
  | [] => [[]]
  | c :: cs =>
    if c = sep then
      [] :: splitChar sep cs
    else
      match splitChar sep cs with
      | [] => [[c]]
      | h :: t => (c :: h) :: t

/-- Go `unicode.IsSpace` on the Latin-1 range: space, `\t`, `\n`, vertical
tab, form feed, `\r`, NEL (U+0085) and NBSP (U+00A0).  (Go also accepts
whitespace code points above Latin-1; none of the claims depend on those.) -/
def goIsSpace (c : Char) : Bool :=
  c = ' ' || c = '\t' || c = '\n' || c.toNat = 11 || c.toNat = 12 ||
    c = '\r' || c.toNat = 133 || c.toNat = 160

/-- Go `strings.TrimSpace`: drop whitespace characters from both ends. -/
def trimSpace (l : List Char) : List Char :=
  ((l.dropWhile goIsSpace).reverse.dropWhile goIsSpace).reverse

/-- Go `strings.Trim(s, "\x22")`: drop double-quote characters from both
ends (main.go 307-316 strips surrounding quotes this way). -/
def trimQuotes (l : List Char) : List Char :=
  ((l.dropWhile (fun c => c = '"')).reverse.dropWhile (fun c => c = '"')).reverse

/-- The body of the loop at main.go 297-321 for a single line: trim it, skip
it when empty, split it on commas, and build a `JobStatus` when it has at
least 5 fields.  A 6th field, when present, populates `Duration`
(main.go 315-317); no other field depends on the count. -/
def parseRow (line : List Char) : Option JobStatus :=
  let trimmed := trimSpace line
  if trimmed = [] then
    none
  else
    let fields := splitChar ',' trimmed
    if 5 ≤ fields.length then
      some
        { Name := String.mk (trimQuotes (fields.getD 0 []))
          Status := String.mk (trimQuotes (fields.getD 1 []))
          StartTime := String.mk (trimQuotes (fields.getD 2 []))
          EndTime := String.mk (trimQuotes (fields.getD 3 []))
          Description := String.mk (trimQuotes (fields.getD 4 []))
          Duration :=
            if 6 ≤ fields.length then String.mk (trimQuotes (fields.getD 5 [])) else "" }
    else
      none

/-- `parseJobStatusOutput` (main.go 289-324).  The Go function returns
`([]JobStatus, error)`; the error is modelled as `Option String` and both
return sites of the source return `nil` for it.  The `status` argument is
accepted, and, as in the source body, never read.  Line 0 is the skipped
header; the loop from index 1 is the `filterMap` over the remaining lines. -/
def parseJobStatusOutput (output : String) (status : String) :
    List JobStatus × Option String :=
  let lines := splitChar '\n' output.data
  if lines.length < 2 then
    ([], none)
  else
    ((lines.drop 1).filterMap parseRow, none)

/-- Join lines with `'\n'`, the inverse image used to describe a
header-plus-rows input text block. -/
def joinWith (sep : Char) : List (List Char) → List Char
  | [] => []
  | [l] => l
  | l :: ls => l ++ sep :: joinWith sep ls

/-- The subject line of `sendEmailAlert` (main.go 329). -/
def emailSubject (problematicJobs : List JobStatus) : String :=
  "ALERT: " ++ toString problematicJobs.length ++ " Veeam Backup Jobs Need Attention"

/-- The `case "Failed"` arm of the grouping switch (main.go 336-345): the
sub-sequence of records whose `Status` equals `"Failed"`. -/
def groupFailed (problematicJobs : List JobStatus) : List JobStatus :=
  problematicJobs.filter (fun job => job.Status == "Failed")

/-- The `case "Warning"` arm of the grouping switch (main.go 336-345). -/
def groupWarning (problematicJobs : List JobStatus) : List JobStatus :=
  problematicJobs.filter (fun job => job.Status == "Warning")

/-- The `case "Running"` arm of the grouping switch (main.go 336-345). -/
def groupRunning (problematicJobs : List JobStatus) : List JobStatus :=
  problematicJobs.filter (fun job => job.Status == "Running")

/-- One job's block in the Failed and Warning sections (main.go 355-356 and
365-366; the two format strings are identical). -/
def jobBlock (job : JobStatus) : String :=
  "Job: " ++ job.Name ++ "\nStatus: " ++ job.Status ++ "\nStart Time: " ++
    job.StartTime ++ "\nEnd Time: " ++ job.EndTime ++ "\nDescription: " ++
    job.Description ++ "\n\n"

/-- The FAILED JOBS section (main.go 351-359); empty string when the group
is empty. -/
def failedSection (problematicJobs : List JobStatus) : String :=
  let failedJobs := groupFailed problematicJobs
  if failedJobs.length > 0 then
    "FAILED JOBS (" ++ toString failedJobs.length ++ "):\n" ++ "--------------\n" ++
      String.join (failedJobs.map jobBlock) ++ "\n"
  else
    ""

/-- The WARNING JOBS section (main.go 361-369); empty string when the group
is empty. -/
def warningSection (problematicJobs : List JobStatus) : String :=
  let warningJobs := groupWarning problematicJobs
  if warningJobs.length > 0 then
    "WARNING JOBS (" ++ toString warningJobs.length ++ "):\n" ++ "----------------\n" ++
      String.join (warningJobs.map jobBlock) ++ "\n"
  else
    ""

/-- The duration suffix of a Running-job block (main.go 375-379).  The Go
code reads `strings.Split(job.Duration, ".")[1]` even though it discards the
value; when the split produces fewer than two pieces (a non-empty `Duration`
with no period) that index is out of range and the program panics, modelled
here as `none`. -/
def runningDurationText (job : JobStatus) : Option String :=
  if job.Duration = "" then
    some ""
  else
    match splitChar '.' job.Duration.data with
    | d0 :: _ :: _ => some (" (Running for " ++ String.mk d0 ++ " minutes)")
    | _ => none

/-- One job's block in the LONG-RUNNING JOBS section (main.go 374-383);
`none` when building the duration suffix panics. -/
def runningJobBlock (job : JobStatus) : Option String :=
  (runningDurationText job).map (fun durationText =>
    "Job: " ++ job.Name ++ "\nStatus: " ++ job.Status ++ durationText ++
      "\nStart Time: " ++ job.StartTime ++ "\nDescription: " ++
      job.Description ++ "\n\n")

/-- The LONG-RUNNING JOBS section (main.go 371-384): `some ""` when the
group is empty, `none` when any of its blocks panics. -/
def runningSection (problematicJobs : List JobStatus) : Option String :=
  let runningJobs := groupRunning problematicJobs
  if runningJobs.length > 0 then
    (runningJobs.mapM runningJobBlock).map (fun blocks =>
      "LONG-RUNNING JOBS (" ++ toString runningJobs.length ++ "):\n" ++
        "---------------------\n" ++ String.join blocks)
  else
    some ""

/-- The fixed report preamble (main.go 348-349). -/
def bodyHeader : String :=
  "Veeam Backup & Replication Job Status Report\n" ++
    "===========================================\n\n"

/-- The fixed report footer (main.go 386). -/
def bodyFooter : String :=
  "\nThis is an automated message from the Veeam Backup Monitor.\n"

/-- The whole e-mail body of `sendEmailAlert` (main.go 348-386), assembled
in the source's fixed order: preamble, Failed section, Warning section,
Running section, footer.  `none` when rendering a Running block panics. -/
def emailBody (problematicJobs : List JobStatus) : Option String :=
  (runningSection problematicJobs).map (fun runningText =>
    bodyHeader ++ failedSection problematicJobs ++ warningSection problematicJobs ++
      runningText ++ bodyFooter)

/-- The section headers the body emits, in the order the source emits them,
derived from the three guards at main.go 351, 361 and 371. -/
def sectionHeaders (problematicJobs : List JobStatus) : List String :=
  (if (groupFailed problematicJobs).length > 0 then ["FAILED JOBS"] else []) ++
    (if (groupWarning problematicJobs).length > 0 then ["WARNING JOBS"] else []) ++
      (if (groupRunning problematicJobs).length > 0 then ["LONG-RUNNING JOBS"] else [])

/-- Go `smtp.PlainAuth(identity, username, password, host)` as a record of
its arguments (main.go 398). -/
structure PlainAuth where
  identity : String
  username : String
  password : String
  host : String
deriving DecidableEq, Repr

/-- One `smtp.SendMail` invocation as a value: its address, optional
authenticator, envelope sender, recipient list and raw message
(main.go 389-408). -/
structure SmtpCall where
  addr : String
  auth : Option PlainAuth
  mailFrom : String
  recipients : List String
  msg : String
deriving DecidableEq, Repr

/-- The dispatch tail of `sendEmailAlert` (main.go 389-408) for an
already-formatted subject and body: the message joins all recipients into
one `To:` header, `auth` stays `nil` unless `EmailPassword` is non-empty,
and the result is the single `smtp.SendMail` call the source makes. -/
def dispatchEmail (subject : String) (body : String) (config : Config) : SmtpCall :=
  { addr := config.SMTPServer ++ ":" ++ toString config.SMTPPort
    auth :=
      if config.EmailPassword ≠ "" then
        some
          { identity := ""
            username := config.EmailFrom
            password := config.EmailPassword
            host := config.SMTPServer }
      else
        none
    mailFrom := config.EmailFrom
    recipients := config.EmailTo
    msg :=
      "From: " ++ config.EmailFrom ++ "\r\n" ++ "To: " ++
        String.intercalate ", " config.EmailTo ++ "\r\n" ++ "Subject: " ++
        subject ++ "\r\n" ++ "\r\n" ++ body }

/-- The list of delivery calls the dispatch tail performs: exactly one. -/
def dispatchCalls (subject : String) (body : String) (config : Config) : List SmtpCall :=
  [dispatchEmail subject body config]

/-- One category's contribution to the merged list in the main loop
(main.go 122-150): nothing when the category is disabled, nothing when its
external query failed (the error is only logged), and the queried records
when it succeeded. -/
def categoryJobs (enabled : Bool) (result : Except String (List JobStatus)) :
    List JobStatus :=
  if enabled then
    match result with
    | .ok jobs => jobs
    | .error _ => []
  else
    []

/-- The merged `problematicJobs` of one poll cycle (main.go 120-150), with
each category's external query outcome given as an explicit `Except`
input.  The source appends in the fixed order Failed, Warning, Running. -/
def collectProblematicJobs (config : Config)
    (failedResult warningResult runningResult : Except String (List JobStatus)) :
    List JobStatus :=
  categoryJobs config.MonitorFailedJobs failedResult ++
    categoryJobs config.MonitorWarningJobs warningResult ++
      categoryJobs config.MonitorRunningJobs runningResult

/-- The dispatch decision of the main loop (main.go 152-161): an e-mail is
attempted exactly when the merged list is non-empty; its subject and body
are those of `sendEmailAlert`. -/
def cycleDispatch (config : Config)
    (failedResult warningResult runningResult : Except String (List JobStatus)) :
    Option (String × Option String) :=
  let problematicJobs := collectProblematicJobs config failedResult warningResult runningResult
  if problematicJobs.length > 0 then
    some (emailSubject problematicJobs, emailBody problematicJobs)
  else
    none

/-- The post-parse normalisation of `loadConfig` (main.go 206-222), applied
to every successfully decoded configuration, in source order: interval
floor, monitoring floor, threshold floor. -/
def normalizeConfig (config : Config) : Config :=
  let c1 :=
    if config.CheckIntervalMinutes < 1 then
      { config with CheckIntervalMinutes := 15 }
    else
      config
  let c2 :=
    if !c1.MonitorFailedJobs && !c1.MonitorWarningJobs && !c1.MonitorRunningJobs then
      { c1 with MonitorFailedJobs := true }
    else
      c1
  if c2.LongRunningThreshold < 1 then
    { c2 with LongRunningThreshold := 120 }
  else
    c2

/-! ### Helper lemmas about the Go string primitives -/

theorem splitChar_ne_nil (sep : Char) : ∀ l : List Char, splitChar sep l ≠ []
  | [] => by simp [splitChar]
  | c :: cs => by
    simp only [splitChar]
    split
    · simp
    · cases h : splitChar sep cs with
      | nil => simp
      | cons a t => simp

theorem splitChar_of_not_mem {sep : Char} :
    ∀ {l : List Char}, sep ∉ l → splitChar sep l = [l]
  | [], _ => rfl
  | c :: cs, h => by
    have hc : ¬c = sep := fun hc => h (hc ▸ List.mem_cons_self c cs)
    have hcs : sep ∉ cs := fun hm => h (List.mem_cons_of_mem c hm)
    simp only [splitChar, if_neg hc, splitChar_of_not_mem hcs]

theorem splitChar_append_cons (sep : Char) :
    ∀ (l rest : List Char), sep ∉ l →
      splitChar sep (l ++ sep :: rest) = l :: splitChar sep rest
  | [], rest, _ => by simp [splitChar]
  | c :: cs, rest, h => by
    have hc : ¬c = sep := fun hc => h (hc ▸ List.mem_cons_self c cs)
    have hcs : sep ∉ cs := fun hm => h (List.mem_cons_of_mem c hm)
    simp only [List.cons_append, splitChar, if_neg hc, List.append_eq,
      splitChar_append_cons sep cs rest hcs]

theorem splitChar_joinWith (sep : Char) :
    ∀ ls : List (List Char), ls ≠ [] → (∀ l ∈ ls, sep ∉ l) →
      splitChar sep (joinWith sep ls) = ls
  | [], h, _ => absurd rfl h
  | [l], _, hmem => by
    simp only [joinWith]
    exact splitChar_of_not_mem (hmem l (List.mem_singleton_self l))
  | l :: l' :: ls, _, hmem => by
    have h1 : sep ∉ l := hmem l (List.mem_cons_self _ _)
    have h2 : ∀ m ∈ l' :: ls, sep ∉ m := fun m hm => hmem m (List.mem_cons_of_mem l hm)
    simp only [joinWith, splitChar_append_cons sep l _ h1,
      splitChar_joinWith sep (l' :: ls) (by simp) h2]

theorem mem_of_mem_splitChar {sep : Char} :
    ∀ {s p : List Char} {c : Char}, p ∈ splitChar sep s → c ∈ p → c ∈ s
  | [], p, c, hp, hc => by
    simp [splitChar] at hp
    subst hp
    exact absurd hc (List.not_mem_nil c)
  | a :: s', p, c, hp, hc => by
    by_cases ha : a = sep
    · simp only [splitChar, if_pos ha] at hp
      rcases List.mem_cons.mp hp with h | h
      · subst h; exact absurd hc (List.not_mem_nil c)
      · exact List.mem_cons_of_mem a (mem_of_mem_splitChar h hc)
    · simp only [splitChar, if_neg ha] at hp
      cases hrec : splitChar sep s' with
      | nil => exact absurd hrec (splitChar_ne_nil sep s')
      | cons h t =>
        rw [hrec] at hp
        rcases List.mem_cons.mp hp with hph | hpt
        · subst hph
          rcases List.mem_cons.mp hc with hca | hch
          · exact hca ▸ List.mem_cons_self a s'
          · exact List.mem_cons_of_mem a
              (mem_of_mem_splitChar (hrec ▸ List.mem_cons_self h t) hch)
        · exact List.mem_cons_of_mem a
            (mem_of_mem_splitChar (hrec ▸ List.mem_cons_of_mem h hpt) hc)

theorem trimSpace_eq_nil {l : List Char} (h : ∀ c ∈ l, goIsSpace c = true) :
    trimSpace l = [] := by
  have h1 : l.dropWhile goIsSpace = [] := List.dropWhile_eq_nil_iff.mpr h
  simp [trimSpace, h1]

/-! ### Claim theorems: the parser -/

/-- C4.  For every well-formed input — one header line followed by zero or
more data rows, joined by newlines — the parser produces exactly one
`JobStatus` per data row with at least 5 comma-separated fields, as the
`filterMap` of the row parser over the data rows in their original order;
a row yields a record exactly when its field count is at least 5, so a row
with fewer than 5 fields is excluded without aborting the rows after it. -/
theorem parseJobStatusOutput_rowwise (header : List Char) (rows : List (List Char))
    (status : String) (hh : '\n' ∉ header) (hr : ∀ r ∈ rows, '\n' ∉ r) :
    (parseJobStatusOutput (String.mk (joinWith '\n' (header :: rows))) status).1 =
      rows.filterMap parseRow ∧
    ∀ r ∈ rows, (parseRow r).isSome = decide (5 ≤ (splitChar ',' (trimSpace r)).length) := by
  constructor
  · have hmem : ∀ l ∈ header :: rows, '\n' ∉ l := by
      intro l hl
      rcases List.mem_cons.mp hl with h | h
      · exact h ▸ hh
      · exact hr l h
    have hsplit : splitChar '\n' (joinWith '\n' (header :: rows)) = header :: rows :=
      splitChar_joinWith '\n' (header :: rows) (by simp) hmem
    show (let lines := splitChar '\n' (String.mk (joinWith '\n' (header :: rows))).data
          if lines.length < 2 then (([] : List JobStatus), (none : Option String))
          else ((lines.drop 1).filterMap parseRow, none)).1 = rows.filterMap parseRow
    rw [show (String.mk (joinWith '\n' (header :: rows))).data =
          joinWith '\n' (header :: rows) from rfl, hsplit]
    cases rows with
    | nil => rfl
    | cons r rs =>
      have hlen : ¬(header :: r :: rs).length < 2 := by simp
      simp only [hlen, if_false, List.drop_one, List.tail_cons]
  · intro r _
    by_cases ht : trimSpace r = []
    · simp [parseRow, ht, show splitChar ',' ([] : List Char) = [[]] from rfl]
    · simp only [parseRow, ht, if_false]
      by_cases hf : 5 ≤ (splitChar ',' (trimSpace r)).length
      · simp [hf]
      · simp [hf]

/-- C5.  The parser never returns an error: its error component is `none`
for every input string, and when every character of the input is whitespace
the record list is empty. -/
theorem parseJobStatusOutput_total (output status : String) :
    (parseJobStatusOutput output status).2 = none ∧
    ((∀ c ∈ output.data, goIsSpace c = true) →
      (parseJobStatusOutput output status).1 = []) := by
  constructor
  · show (if (splitChar '\n' output.data).length < 2
            then (([] : List JobStatus), (none : Option String))
            else (((splitChar '\n' output.data).drop 1).filterMap parseRow, none)).2 = none
    split <;> rfl
  · intro hws
    show (if (splitChar '\n' output.data).length < 2
            then (([] : List JobStatus), (none : Option String))
            else (((splitChar '\n' output.data).drop 1).filterMap parseRow, none)).1 = []
    split
    · rfl
    · show ((splitChar '\n' output.data).drop 1).filterMap parseRow = []
      rw [List.filterMap_eq_nil_iff]
      intro r hrmem
      have hrl : r ∈ splitChar '\n' output.data := List.mem_of_mem_drop hrmem
      have hall : ∀ c ∈ r, goIsSpace c = true := fun c hc =>
        hws c (mem_of_mem_splitChar hrl hc)
      simp [parseRow, trimSpace_eq_nil hall]

/-- A concrete header line in the external tool's format. -/
def hdrLine : List Char := "Name,LastResult,LastStart,LastEnd,Description".data

/-- A concrete well-formed 5-field data row. -/
def rowA : List Char := "\"A\",\"Failed\",\"s\",\"e\",\"d\"".data

/-- A concrete malformed data row with fewer than 5 fields. -/
def rowBad : List Char := "short,row".data

/-- A second concrete well-formed 5-field data row. -/
def rowB : List Char := "\"B\",\"Warning\",\"s\",\"e\",\"d\"".data

/-- Witness for `parseJobStatusOutput_rowwise`: a header plus three rows,
the middle one malformed; its hypotheses hold by evaluation. -/
theorem parseJobStatusOutput_rowwise_witness :
    (parseJobStatusOutput (String.mk (joinWith '\n' (hdrLine :: [rowA, rowBad, rowB])))
        "Failed").1 = [rowA, rowBad, rowB].filterMap parseRow ∧
    ∀ r ∈ [rowA, rowBad, rowB],
      (parseRow r).isSome = decide (5 ≤ (splitChar ',' (trimSpace r)).length) :=
  parseJobStatusOutput_rowwise hdrLine [rowA, rowBad, rowB] "Failed" (by decide) (by decide)

/-- Witness for `parseJobStatusOutput_total` at a whitespace-only input;
its hypothesis holds by evaluation. -/
theorem parseJobStatusOutput_total_witness :
    (∀ c ∈ ("  \n\t " : String).data, goIsSpace c = true) ∧
    (parseJobStatusOutput "  \n\t " "Failed").1 = [] ∧
    (parseJobStatusOutput "  \n\t " "Failed").2 = none :=
  ⟨by decide, (parseJobStatusOutput_total "  \n\t " "Failed").2 (by decide),
    (parseJobStatusOutput_total "  \n\t " "Failed").1⟩

/-- C1.  The Running-block duration suffix at three concrete inputs.  The
claim's own examples hold: duration `"45.231"` renders
`" (Running for 45 minutes)"` and an empty duration renders no suffix.  But
a non-empty duration with no period — e.g. `"45"` — makes the source panic
(index 1 of a one-element split, main.go 377), modelled as `none`, so
rendering does not complete without error for every Running record. -/
theorem running_duration_panic :
    runningDurationText
        { Name := "JobA", Status := "Running", StartTime := "t1", EndTime := "N/A",
          Description := "Currently running", Duration := "45" } = none ∧
    emailBody
        [{ Name := "JobA", Status := "Running", StartTime := "t1", EndTime := "N/A",
           Description := "Currently running", Duration := "45" }] = none ∧
    runningDurationText
        { Name := "JobA", Status := "Running", StartTime := "t1", EndTime := "N/A",
          Description := "Currently running", Duration := "45.231" } =
      some " (Running for 45 minutes)" ∧
    runningDurationText
        { Name := "JobA", Status := "Running", StartTime := "t1", EndTime := "N/A",
          Description := "Currently running", Duration := "" } = some "" := by
  decide

/-- A concrete 6-field data row whose status field is not `Running`. -/
def durRow : List Char := "\"J\",\"Failed\",\"s\",\"e\",\"d\",\"42\"".data

/-- C3 counterexample.  A 6-field row with status `Failed` parses to a
record whose `Duration` is the non-empty string `"42"` even though its
`Status` is not `Running`: the parser consults only the field count. -/
theorem parseDuration_status_counterexample :
    (parseJobStatusOutput
        "Name,LastResult,LastStart,LastEnd,Description\n\"J\",\"Failed\",\"s\",\"e\",\"d\",\"42\""
        "Failed").1 =
      [{ Name := "J", Status := "Failed", StartTime := "s", EndTime := "e",
         Description := "d", Duration := "42" }] ∧
    ((parseJobStatusOutput
        "Name,LastResult,LastStart,LastEnd,Description\n\"J\",\"Failed\",\"s\",\"e\",\"d\",\"42\""
        "Failed").1.any
      (fun j => !(j.Status == "Running") && !(j.Duration == ""))) = true := by
  decide

/-- C3 amended.  A record produced by the row parser carries a non-empty
`Duration` exactly when its row supplied a 6th comma-separated field whose
quote-trimmed value is non-empty; the record's status is never consulted. -/
theorem duration_from_sixth_field (line : List Char) (j : JobStatus)
    (h : parseRow line = some j) :
    j.Duration =
      (if 6 ≤ (splitChar ',' (trimSpace line)).length then
        String.mk (trimQuotes ((splitChar ',' (trimSpace line)).getD 5 []))
      else
        "") := by
  simp only [parseRow] at h
  by_cases ht : trimSpace line = []
  · simp [ht] at h
  · rw [if_neg ht] at h
    by_cases hf : 5 ≤ (splitChar ',' (trimSpace line)).length
    · rw [if_pos hf] at h
      obtain rfl : _ = j := Option.some.inj h
      rfl
    · rw [if_neg hf] at h
      exact absurd h (by simp)

/-- Witness for `duration_from_sixth_field` at the concrete row `durRow`;
its hypothesis holds by evaluation. -/
theorem duration_from_sixth_field_witness :
    ({ Name := "J", Status := "Failed", StartTime := "s", EndTime := "e",
       Description := "d", Duration := "42" } : JobStatus).Duration =
      (if 6 ≤ (splitChar ',' (trimSpace durRow)).length then
        String.mk (trimQuotes ((splitChar ',' (trimSpace durRow)).getD 5 []))
      else
        "") :=
  duration_from_sixth_field durRow
    { Name := "J", Status := "Failed", StartTime := "s", EndTime := "e",
      Description := "d", Duration := "42" } (by decide)

/-! ### Claim theorems: the digest formatter -/

/-- A concrete record whose status is none of the three grouped values. -/
def jobSuccess : JobStatus :=
  { Name := "JobA", Status := "Success", StartTime := "2024-01-01",
    EndTime := "2024-01-01", Description := "ok", Duration := "" }

/-- C2 counterexample.  For the input `[jobSuccess]` the subject line states
the total `1`, yet the record lands in none of the three groups (the switch
at main.go 336-345 has no default arm), so the sum of the rendered section
counts is `0`, not the count stated in the subject line. -/
theorem subject_vs_sections_counterexample :
    emailSubject [jobSuccess] = "ALERT: 1 Veeam Backup Jobs Need Attention" ∧
    (groupFailed [jobSuccess]).length + (groupWarning [jobSuccess]).length +
      (groupRunning [jobSuccess]).length = 0 ∧
    ¬((groupFailed [jobSuccess]).length + (groupWarning [jobSuccess]).length +
        (groupRunning [jobSuccess]).length = ([jobSuccess] : List JobStatus).length) := by
  decide

/-- C2 amended.  The subject line states the total input count, and the sum
of the three rendered section counts equals the number of input records
whose status is one of Failed, Warning or Running — every such record lands
in exactly one group, while a record with any other status lands in none,
so the sum matches the subject count only when every record has one of the
three statuses. -/
theorem subject_vs_sections_amended (problematicJobs : List JobStatus) :
    (groupFailed problematicJobs).length + (groupWarning problematicJobs).length +
        (groupRunning problematicJobs).length =
      (problematicJobs.filter (fun job =>
        job.Status == "Failed" || job.Status == "Warning" ||
          job.Status == "Running")).length ∧
    emailSubject problematicJobs =
      "ALERT: " ++ toString problematicJobs.length ++ " Veeam Backup Jobs Need Attention" := by
  refine ⟨?_, rfl⟩
  induction problematicJobs with
  | nil => rfl
  | cons job t ih =>
    simp only [groupFailed, groupWarning, groupRunning] at ih ⊢
    by_cases h1 : job.Status = "Failed"
    · simp [List.filter_cons, beq_iff_eq, h1, ih]
      omega
    · by_cases h2 : job.Status = "Warning"
      · simp [List.filter_cons, beq_iff_eq, h1, h2, ih]
        omega
      · by_cases h3 : job.Status = "Running"
        · simp [List.filter_cons, beq_iff_eq, h1, h2, h3, ih]
          omega
        · simp [List.filter_cons, beq_iff_eq, h1, h2, h3, ih]

/-- C6.  The digest body always assembles its sections in the fixed order
Failed, Warning, Running: an empty group contributes no header and no text,
a successfully rendered body is exactly the preamble, the Failed section,
the Warning section, the Running section and the footer in that order, the
emitted headers form a sub-list of the fixed header order, and which
headers are emitted is invariant under any permutation of the input. -/
theorem digest_section_order (problematicJobs : List JobStatus) :
    (groupFailed problematicJobs = [] → failedSection problematicJobs = "") ∧
    (groupWarning problematicJobs = [] → warningSection problematicJobs = "") ∧
    (groupRunning problematicJobs = [] → runningSection problematicJobs = some "") ∧
    (∀ b, emailBody problematicJobs = some b →
      b = bodyHeader ++ failedSection problematicJobs ++ warningSection problematicJobs ++
        (runningSection problematicJobs).getD "" ++ bodyFooter) ∧
    List.Sublist (sectionHeaders problematicJobs)
      ["FAILED JOBS", "WARNING JOBS", "LONG-RUNNING JOBS"] ∧
    (∀ jobs', problematicJobs.Perm jobs' →
      sectionHeaders problematicJobs = sectionHeaders jobs') := by
  refine ⟨?_, ?_, ?_, ?_, ?_, ?_⟩
  · intro h
    simp [failedSection, h]
  · intro h
    simp [warningSection, h]
  · intro h
    simp [runningSection, h]
  · intro b hb
    simp only [emailBody, Option.map_eq_some'] at hb
    obtain ⟨rt, hrt, rfl⟩ := hb
    rw [hrt]
    rfl
  · simp only [sectionHeaders]
    split <;> split <;> split <;> decide
  · intro jobs' hp
    have h1 := (hp.filter (fun job => job.Status == "Failed")).length_eq
    have h2 := (hp.filter (fun job => job.Status == "Warning")).length_eq
    have h3 := (hp.filter (fun job => job.Status == "Running")).length_eq
    simp only [sectionHeaders, groupFailed, groupWarning, groupRunning, h1, h2, h3]

/-- Witness for `digest_section_order` at a concrete one-record input and
its identity permutation; every hypothesis is discharged by evaluation. -/
theorem digest_section_order_witness :
    failedSection [jobSuccess] = "" ∧
    List.Sublist (sectionHeaders [jobSuccess])
      ["FAILED JOBS", "WARNING JOBS", "LONG-RUNNING JOBS"] ∧
    sectionHeaders [jobSuccess] = sectionHeaders [jobSuccess] :=
  ⟨(digest_section_order [jobSuccess]).1 (by decide),
    (digest_section_order [jobSuccess]).2.2.2.2.1,
    (digest_section_order [jobSuccess]).2.2.2.2.2 [jobSuccess] (List.Perm.refl _)⟩

/-! ### Claim theorems: configuration, poll cycle, dispatcher -/

/-- C7.  Every successfully decoded configuration is normalised so that an
interval below 1 becomes 15, a threshold below 1 becomes 120, all-disabled
monitoring toggles force Failed-job monitoring on, and the result always
has at least one category enabled, interval at least 1 and threshold at
least 1. -/
theorem loadConfig_normalization (config : Config) :
    (config.CheckIntervalMinutes < 1 → (normalizeConfig config).CheckIntervalMinutes = 15) ∧
    (config.LongRunningThreshold < 1 → (normalizeConfig config).LongRunningThreshold = 120) ∧
    (config.MonitorFailedJobs = false → config.MonitorWarningJobs = false →
      config.MonitorRunningJobs = false → (normalizeConfig config).MonitorFailedJobs = true) ∧
    ((normalizeConfig config).MonitorFailedJobs = true ∨
      (normalizeConfig config).MonitorWarningJobs = true ∨
      (normalizeConfig config).MonitorRunningJobs = true) ∧
    1 ≤ (normalizeConfig config).CheckIntervalMinutes ∧
    1 ≤ (normalizeConfig config).LongRunningThreshold := by
  have hI : (normalizeConfig config).CheckIntervalMinutes =
      if config.CheckIntervalMinutes < 1 then 15 else config.CheckIntervalMinutes := by
    simp only [normalizeConfig]
    split_ifs <;> rfl
  have hT : (normalizeConfig config).LongRunningThreshold =
      if config.LongRunningThreshold < 1 then 120 else config.LongRunningThreshold := by
    simp only [normalizeConfig]
    split_ifs <;> rfl
  have hF : (normalizeConfig config).MonitorFailedJobs =
      if !config.MonitorFailedJobs && !config.MonitorWarningJobs &&
          !config.MonitorRunningJobs then true else config.MonitorFailedJobs := by
    simp only [normalizeConfig]
    split_ifs <;> simp_all
  have hW : (normalizeConfig config).MonitorWarningJobs = config.MonitorWarningJobs := by
    simp only [normalizeConfig]
    split_ifs <;> rfl
  have hR : (normalizeConfig config).MonitorRunningJobs = config.MonitorRunningJobs := by
    simp only [normalizeConfig]
    split_ifs <;> rfl
  refine ⟨?_, ?_, ?_, ?_, ?_, ?_⟩
  · intro h
    rw [hI, if_pos h]
  · intro h
    rw [hT, if_pos h]
  · intro ha hb hc
    rw [hF]
    simp [ha, hb, hc]
  · rw [hF, hW, hR]
    cases hfa : config.MonitorFailedJobs <;>
      cases hwa : config.MonitorWarningJobs <;>
        cases hra : config.MonitorRunningJobs <;> simp
  · rw [hI]
    split_ifs with h <;> omega
  · rw [hT]
    split_ifs with h <;> omega

/-- Witness for `loadConfig_normalization` at the spec's own example values
`checkIntervalMinutes = 0`, `longRunningThreshold = -5` and no toggle
enabled; each hypothesis holds by evaluation. -/
theorem loadConfig_normalization_witness :
    (normalizeConfig
        { VeeamPowerShellModule := "Veeam.Backup.PowerShell", VeeamServerAddress := "v",
          CheckIntervalMinutes := 0, SMTPServer := "s", SMTPPort := 25, EmailFrom := "f",
          EmailTo := ["t"], EmailPassword := "", MonitorFailedJobs := false,
          MonitorWarningJobs := false, MonitorRunningJobs := false,
          LongRunningThreshold := -5 }).CheckIntervalMinutes = 15 ∧
    (normalizeConfig
        { VeeamPowerShellModule := "Veeam.Backup.PowerShell", VeeamServerAddress := "v",
          CheckIntervalMinutes := 0, SMTPServer := "s", SMTPPort := 25, EmailFrom := "f",
          EmailTo := ["t"], EmailPassword := "", MonitorFailedJobs := false,
          MonitorWarningJobs := false, MonitorRunningJobs := false,
          LongRunningThreshold := -5 }).LongRunningThreshold = 120 ∧
    (normalizeConfig
        { VeeamPowerShellModule := "Veeam.Backup.PowerShell", VeeamServerAddress := "v",
          CheckIntervalMinutes := 0, SMTPServer := "s", SMTPPort := 25, EmailFrom := "f",
          EmailTo := ["t"], EmailPassword := "", MonitorFailedJobs := false,
          MonitorWarningJobs := false, MonitorRunningJobs := false,
          LongRunningThreshold := -5 }).MonitorFailedJobs = true :=
  ⟨(loadConfig_normalization _).1 (by decide),
    (loadConfig_normalization _).2.1 (by decide),
    (loadConfig_normalization _).2.2.1 rfl rfl rfl⟩

/-- C8.  Categories are independent in one poll cycle: a category whose
external query fails contributes exactly what a category that succeeded
with zero records contributes, leaving the other categories' records
intact, and every record of every enabled succeeding category appears in
the merged list. -/
theorem category_independence (config : Config)
    (fr wr rr : Except String (List JobStatus)) (e : String) :
    collectProblematicJobs config (.error e) wr rr =
        collectProblematicJobs config (.ok []) wr rr ∧
    collectProblematicJobs config fr (.error e) rr =
        collectProblematicJobs config fr (.ok []) rr ∧
    collectProblematicJobs config fr wr (.error e) =
        collectProblematicJobs config fr wr (.ok []) ∧
    (∀ jobs j, config.MonitorFailedJobs = true → fr = .ok jobs → j ∈ jobs →
      j ∈ collectProblematicJobs config fr wr rr) ∧
    (∀ jobs j, config.MonitorWarningJobs = true → wr = .ok jobs → j ∈ jobs →
      j ∈ collectProblematicJobs config fr wr rr) ∧
    (∀ jobs j, config.MonitorRunningJobs = true → rr = .ok jobs → j ∈ jobs →
      j ∈ collectProblematicJobs config fr wr rr) := by
  refine ⟨?_, ?_, ?_, ?_, ?_, ?_⟩
  · simp [collectProblematicJobs, categoryJobs]
  · simp [collectProblematicJobs, categoryJobs]
  · simp [collectProblematicJobs, categoryJobs]
  · intro jobs j hm hok hj
    subst hok
    simp [collectProblematicJobs, categoryJobs, hm, hj]
  · intro jobs j hm hok hj
    subst hok
    simp [collectProblematicJobs, categoryJobs, hm, hj]
  · intro jobs j hm hok hj
    subst hok
    simp [collectProblematicJobs, categoryJobs, hm, hj]

/-- A concrete fully-enabled configuration for the cycle witnesses. -/
def cfgAll : Config :=
  { VeeamPowerShellModule := "Veeam.Backup.PowerShell", VeeamServerAddress := "v",
    CheckIntervalMinutes := 15, SMTPServer := "s", SMTPPort := 25, EmailFrom := "f",
    EmailTo := ["t"], EmailPassword := "", MonitorFailedJobs := true,
    MonitorWarningJobs := true, MonitorRunningJobs := true,
    LongRunningThreshold := 120 }

/-- A concrete Failed record for the cycle witnesses. -/
def jobFailedSample : JobStatus :=
  { Name := "JobA", Status := "Failed", StartTime := "2024-01-01",
    EndTime := "2024-01-01", Description := "Disk full", Duration := "" }

/-- Witness for `category_independence`: Warning query fails while the
Failed query returns one record; hypotheses hold by evaluation. -/
theorem category_independence_witness :
    collectProblematicJobs cfgAll (.ok [jobFailedSample]) (.error "boom") (.ok []) =
        collectProblematicJobs cfgAll (.ok [jobFailedSample]) (.ok []) (.ok []) ∧
    jobFailedSample ∈
      collectProblematicJobs cfgAll (.ok [jobFailedSample]) (.error "boom") (.ok []) :=
  ⟨(category_independence cfgAll (.ok [jobFailedSample]) (.error "boom") (.ok []) "boom").2.1,
    (category_independence cfgAll (.ok [jobFailedSample]) (.error "boom") (.ok [])
        "boom").2.2.2.1 [jobFailedSample] jobFailedSample rfl rfl (by decide)⟩

/-- C9.  In a poll cycle no dispatch is attempted exactly when the merged
list of problematic jobs is empty; a non-empty merged list always produces
a dispatch attempt carrying the digest subject and body. -/
theorem dispatch_iff_nonempty (config : Config)
    (fr wr rr : Except String (List JobStatus)) :
    (cycleDispatch config fr wr rr = none ↔
      collectProblematicJobs config fr wr rr = []) ∧
    (collectProblematicJobs config fr wr rr ≠ [] →
      cycleDispatch config fr wr rr =
        some (emailSubject (collectProblematicJobs config fr wr rr),
          emailBody (collectProblematicJobs config fr wr rr))) := by
  constructor
  · show (if (collectProblematicJobs config fr wr rr).length > 0
            then some (emailSubject (collectProblematicJobs config fr wr rr),
              emailBody (collectProblematicJobs config fr wr rr))
            else none) = none ↔
        collectProblematicJobs config fr wr rr = []
    split
    · rename_i hpos
      simp only [reduceCtorEq, false_iff]
      exact List.length_pos.mp hpos
    · rename_i hneg
      simp only [true_iff]
      exact List.length_eq_zero.mp (Nat.eq_zero_of_not_pos hneg)
  · intro hne
    show (if (collectProblematicJobs config fr wr rr).length > 0
            then some (emailSubject (collectProblematicJobs config fr wr rr),
              emailBody (collectProblematicJobs config fr wr rr))
            else none) = _
    rw [if_pos (List.length_pos.mpr hne)]

/-- Witness for `dispatch_iff_nonempty` at a cycle with one Failed record;
its hypothesis holds by evaluation. -/
theorem dispatch_iff_nonempty_witness :
    (cycleDispatch cfgAll (.ok []) (.ok []) (.ok []) = none ↔
      collectProblematicJobs cfgAll (.ok []) (.ok []) (.ok []) = []) ∧
    cycleDispatch cfgAll (.ok [jobFailedSample]) (.ok []) (.ok []) =
      some (emailSubject (collectProblematicJobs cfgAll (.ok [jobFailedSample]) (.ok []) (.ok [])),
        emailBody (collectProblematicJobs cfgAll (.ok [jobFailedSample]) (.ok []) (.ok []))) :=
  ⟨(dispatch_iff_nonempty cfgAll (.ok []) (.ok []) (.ok [])).1,
    (dispatch_iff_nonempty cfgAll (.ok [jobFailedSample]) (.ok []) (.ok [])).2 (by decide)⟩

/-- C10.  The dispatch tail authenticates exactly when `EmailPassword` is
non-empty — and then with the plaintext credentials of main.go 398 — joins
every recipient into the single `To:` header of the one message, addresses
exactly the configured recipient list, and performs exactly one delivery
call. -/
theorem dispatcher_contract (subject body : String) (config : Config) :
    ((dispatchEmail subject body config).auth = none ↔ config.EmailPassword = "") ∧
    ((dispatchEmail subject body config).auth.isSome = true ↔ config.EmailPassword ≠ "") ∧
    (∀ a, (dispatchEmail subject body config).auth = some a →
      a = { identity := "", username := config.EmailFrom,
            password := config.EmailPassword, host := config.SMTPServer }) ∧
    (dispatchEmail subject body config).msg =
      "From: " ++ config.EmailFrom ++ "\r\n" ++ "To: " ++
        String.intercalate ", " config.EmailTo ++ "\r\n" ++ "Subject: " ++ subject ++
        "\r\n" ++ "\r\n" ++ body ∧
    (dispatchEmail subject body config).recipients = config.EmailTo ∧
    (dispatchCalls subject body config).length = 1 := by
  by_cases hp : config.EmailPassword = "" <;>
    simp [dispatchEmail, dispatchCalls, hp]

/-- Witness for `dispatcher_contract` at a concrete authenticated
configuration; the `auth = some a` hypothesis is discharged by evaluation. -/
theorem dispatcher_contract_witness :
    ((dispatchEmail "S" "B"
        { cfgAll with EmailPassword := "pw", EmailTo := ["a@x", "b@y"] }).auth.isSome = true ↔
      ({ cfgAll with EmailPassword := "pw", EmailTo := ["a@x", "b@y"] } :
        Config).EmailPassword ≠ "") ∧
    ({ identity := "", username := "f", password := "pw", host := "s" } : PlainAuth) =
      { identity := "",
        username := ({ cfgAll with EmailPassword := "pw", EmailTo := ["a@x", "b@y"] } :
          Config).EmailFrom,
        password := ({ cfgAll with EmailPassword := "pw", EmailTo := ["a@x", "b@y"] } :
          Config).EmailPassword,
        host := ({ cfgAll with EmailPassword := "pw", EmailTo := ["a@x", "b@y"] } :
          Config).SMTPServer } ∧
    (dispatchCalls "S" "B" { cfgAll with EmailPassword := "pw", EmailTo := ["a@x", "b@y"] }).length = 1 :=
  ⟨(dispatcher_contract "S" "B" _).2.1,
    (dispatcher_contract "S" "B"
        { cfgAll with EmailPassword := "pw", EmailTo := ["a@x", "b@y"] }).2.2.1
      { identity := "", username := "f", password := "pw", host := "s" } (by decide),
    (dispatcher_contract "S" "B" _).2.2.2.2.2⟩
